import Mathlib

/-!
# LoadForge — verification of the runtime core

A shallow embedding of the LoadForge load-testing runtime
(`src/loadforge/runtime/`): context resolution (`context.py`),
template interpolation (`interpolate.py`), the auth preflight (`auth.py`),
the single-pass runner (`runner.py`, `executor.py`), the load orchestrator
and per-iteration scenario interpreter (`load_executor.py`), the metrics
collector (`metrics.py`) and the result assembler (`load_result.py`).

Conventions of the embedding:
* Python dicts become association lists (`Ctx`) looked up by first match;
  dict update (`d[k] = v`, `\x7b**a, **b\x7d`) is modelled by `dictInsert` /
  `pyUnion`, which replace in place like Python does.
* Exceptions become `Except String`; the two exception classes that the
  scenario interpreter distinguishes (`AssertionError` vs everything else)
  become the two constructors of `StepFailure`.
* The HTTP transport (external collaborator `httpx`) is a parameter: a
  function from method and resolved path to a measured latency and either a
  decoded response or a raised transport error.  Wall-clock readings
  (`time.perf_counter`, `time.monotonic`) are likewise supplied from the
  outside (latencies by the transport, elapsed duration as a parameter).
* JSONPath evaluation (external library `jsonpath_ng`) is a parameter
  `jfind : String → Json → List Json` returning the matched values.
* Machine floats are modelled by `ℚ` (all arithmetic performed by the code
  under verification is affine in its inputs).
-/

namespace LoadForge

/-- A single quote character, used when mirroring Python `repr` output. -/
def squote : String := String.singleton (Char.ofNat 39)

/-- Python `s.strip('"')`: remove every leading and trailing `"` character. -/
def stripQuoteChars (s : String) : String :=
  String.mk (((s.toList.dropWhile (· == '"')).reverse.dropWhile (· == '"')).reverse)

/-- Python `s.strip()`: trim leading and trailing whitespace. -/
def pyStrip (s : String) : String :=
  String.mk (((s.toList.dropWhile Char.isWhitespace).reverse.dropWhile
    Char.isWhitespace).reverse)

/-- Python `s.strip().strip('"')`: trim whitespace, then strip quotes. -/
def stripQuotes (s : String) : String :=
  stripQuoteChars (pyStrip s)

/-- A Python dict of strings, as an association list looked up by first match. -/
abbrev Ctx := List (String × String)

/-- Python `d[k] = v`: replace the value in place if the key is bound,
otherwise append the new binding (dicts preserve insertion order). -/
def dictInsert (m : Ctx) (k v : String) : Ctx :=
  if (List.lookup k m).isSome then
    m.map (fun p => if p.1 = k then (k, v) else p)
  else
    m ++ [(k, v)]

/-- Python `\x7b**a, **b\x7d`: the merge of two dicts, `b` winning on collisions. -/
def pyUnion (a b : Ctx) : Ctx :=
  b.foldl (fun acc p => dictInsert acc p.1 p.2) a

/-- `context.py::resolve_ref` error message. -/
def refNotFoundMsg (name : String) : String :=
  "Reference " ++ squote ++ "#" ++ name ++ squote ++ " not found."

/-- `context.py::resolve_ref`. -/
def resolve_ref (name : String) (ctx : Ctx) : Except String String :=
  match List.lookup name ctx with
  | some v => Except.ok v
  | none => Except.error (refNotFoundMsg name)

/-- The `ValueOrRef` model node (`model/values.py`): a literal string
(empty when unset) or a reference to a context name. -/
structure ValueOrRef where
  value : String := ""
  ref : Option String := none
  deriving DecidableEq

/-- `context.py::resolve_value_or_ref`.  The STRING branch is taken when
`value` is truthy, i.e. a non-empty string. -/
def resolve_value_or_ref (vor : Option ValueOrRef) (ctx : Ctx) :
    Except String String :=
  match vor with
  | none => Except.error "Missing value."
  | some v =>
    if v.value ≠ "" then
      Except.ok (stripQuotes v.value)
    else
      match v.ref with
      | some r => resolve_ref r ctx
      | none => Except.error "Invalid ValueOrRef: neither value nor ref set."

/-- An `environment` binding (`model/core.py::EnvVar`): a local name and the
process-environment key named by its `env("…")` call (still quoted). -/
structure EnvVarB where
  name : String
  key : String
  deriving DecidableEq

/-- `context.py::resolve_env`.  `osEnv` models the process environment read by
`os.getenv`.  (The original message also prints the current working
directory, an I/O detail not modelled here.) -/
def resolve_env (osEnv : Ctx) (environment : Option (List EnvVarB)) :
    Except String Ctx :=
  match environment with
  | none => Except.ok []
  | some envVars =>
    envVars.foldlM
      (fun resolved v =>
        let key := stripQuoteChars v.key
        match List.lookup key osEnv with
        | some val => Except.ok (dictInsert resolved v.name val)
        | none => Except.error ("Missing environment variable: " ++ key))
      []

/-- A `variables` entry (`model/values.py::VarEntry`). -/
structure VarEntry where
  name : String
  value : Option ValueOrRef
  deriving DecidableEq

/-- The loop body order of `context.py::resolve_variables`: each entry is
resolved against `\x7b**env_map, **resolved\x7d` and then assigned. -/
def resolve_variables_go (env_map : Ctx) :
    List VarEntry → Ctx → Except String Ctx
  | [], resolved => Except.ok resolved
  | entry :: rest, resolved =>
    match resolve_value_or_ref entry.value (pyUnion env_map resolved) with
    | Except.ok v => resolve_variables_go env_map rest (dictInsert resolved entry.name v)
    | Except.error e => Except.error e

/-- `context.py::resolve_variables`. -/
def resolve_variables (variablesBlock : Option (List VarEntry)) (env_map : Ctx) :
    Except String Ctx :=
  match variablesBlock with
  | none => Except.ok []
  | some vs => resolve_variables_go env_map vs []

/-- One step of insertion sort on strings, keeping the list ordered. -/
def insertSorted (x : String) : List String → List String
  | [] => [x]
  | y :: ys => if x ≤ y then x :: y :: ys else y :: insertSorted x ys

/-- Python `sorted(…)` on a list of strings, as a structural insertion sort
(same sorted-output contract, chosen for kernel computability). -/
def pySorted (l : List String) : List String :=
  l.foldr insertSorted []

/-- The duplicate names computed by `context.py::build_context`:
`sorted(set(env) & set(vars))`. -/
def duplicate_names (env_map vars_map : Ctx) : List String :=
  pySorted (((env_map.map Prod.fst).filter
    (fun k => k ∈ vars_map.map Prod.fst)).dedup)

/-- `context.py::build_context`: fails when environment and variable names
overlap, otherwise merges the two tables. -/
def build_context (env_map vars_map : Ctx) : Except String Ctx :=
  match duplicate_names env_map vars_map with
  | [] => Except.ok (pyUnion env_map vars_map)
  | dups =>
    Except.error
      ("Duplicate names in environment and variables: "
        ++ String.intercalate ", " dups)

/-- The `target` model node (`model/core.py::Target`). -/
structure TargetB where
  ref : Option String := none
  value : Option String := none
  deriving DecidableEq

/-- `context.py::resolve_target` (`if target.value:` tests truthiness, so an
empty-string literal falls through to the `ref` branch). -/
def resolve_target (target : Option TargetB) (ctx : Ctx) :
    Except String (Option String) :=
  match target with
  | none => Except.ok none
  | some t =>
    if t.value.getD "" ≠ "" then
      Except.ok (some (stripQuotes (t.value.getD "")))
    else
      match t.ref with
      | some r => (resolve_ref r ctx).map some
      | none => Except.ok none

/-! ## Interpolation (`interpolate.py`)

The regex `\$\x7b([A-Za-z_][A-Za-z0-9_]*)\x7d` is substituted left to right;
replacement values are spliced in verbatim and never rescanned. -/

/-- First character class of the placeholder identifier: `[A-Za-z_]`. -/
def isIdentStart (c : Char) : Bool :=
  (('A' ≤ c && c ≤ 'Z') || ('a' ≤ c && c ≤ 'z')) || c == '_'

/-- Remaining character class of the placeholder identifier: `[A-Za-z0-9_]`. -/
def isIdentChar (c : Char) : Bool :=
  isIdentStart c || ('0' ≤ c && c ≤ '9')

/-- The suffix removed by `List.dropWhile` never makes the list longer. -/
theorem length_dropWhile_le (p : Char → Bool) (l : List Char) :
    (l.dropWhile p).length ≤ l.length := by
  induction l with
  | nil => simp [List.dropWhile]
  | cons a l ih =>
    by_cases h : p a <;> simp [List.dropWhile, h] <;> omega

/-- `interpolate.py` error message (Python renders it as `$\x7bkey\x7d`). -/
def unknownVarMsg (key : String) : String :=
  "Unknown variable in template: $\x7b" ++ key ++ "\x7d"

/-- The left-to-right scan performed by `_VAR_PATTERN.sub`: positions that do
not start a full `$\x7bident\x7d` match are copied through; matched
placeholders are replaced by the context value (raising on unknown names).
Every recursive call consumes at least one character while spending one unit
of fuel, so with fuel `≥ l.length` the fuel-exhaustion branch is unreachable
(`interpGo_fuel` below); the fuel only serves structural termination. -/
def interpGo (ctx : Ctx) : Nat → List Char → Except String String
  | _, [] => Except.ok ""
  | fuel + 1, '$' :: '{' :: c :: rest =>
    if isIdentStart c then
      match rest.dropWhile isIdentChar with
      | '}' :: tail =>
        let key := String.mk (c :: rest.takeWhile isIdentChar)
        match List.lookup key ctx with
        | some v => (interpGo ctx fuel tail).map (fun s => v ++ s)
        | none => Except.error (unknownVarMsg key)
      | _ => (interpGo ctx fuel ('{' :: c :: rest)).map (fun s => "$" ++ s)
    else
      (interpGo ctx fuel ('{' :: c :: rest)).map (fun s => "$" ++ s)
  | fuel + 1, c :: cs => (interpGo ctx fuel cs).map (fun s => String.singleton c ++ s)
  | 0, l => Except.ok (String.mk l)

/-- `interpolate.py::interpolate`: unquote the template, then substitute. -/
def interpolate (template : String) (ctx : Ctx) : Except String String :=
  interpGo ctx (stripQuotes template).toList.length (stripQuotes template).toList

deriving instance DecidableEq for Except

/-! ## JSON values and the HTTP transport (external collaborators)

The core only needs responses whose body it can decode as JSON (spec §6);
JSONPath evaluation lives in the external `jsonpath_ng` library and is
therefore a parameter `jfind` of every function that uses it. -/

/-- A decoded JSON document.  Python JSON numbers (int / float) are modelled
by `ℚ`. -/
inductive Json where
  | null : Json
  | bool (b : Bool) : Json
  | num (n : ℚ) : Json
  | str (s : String) : Json
  | arr (items : List Json) : Json
  | obj (fields : List (String × Json)) : Json

/-- Python truthiness of a decoded JSON value (`if not value:`). -/
def Json.truthy : Json → Bool
  | .null => false
  | .bool b => b
  | .num n => n ≠ 0
  | .str s => s ≠ ""
  | .arr items => !items.isEmpty
  | .obj fields => !fields.isEmpty

/-- The `f"\x7btype(value)\x7d"` rendering used in assertion messages. -/
def Json.pyType : Json → String
  | .null => "NoneType"
  | .bool _ => "bool"
  | .num n => if n.den = 1 then "int" else "float"
  | .str _ => "str"
  | .arr _ => "list"
  | .obj _ => "dict"

/-- An HTTP response as the core consumes it: a status code and a decoded
JSON body (spec §6: the transport returns a body the core can decode). -/
structure HttpResponse where
  status_code : Int
  body : Json

/-- The shared HTTP client: a request (method, resolved path) yields a
measured latency and either a decoded response or a raised transport error.
Latency is wall-clock time and therefore supplied by the transport. -/
abbrev Transport := String → String → ℚ × Except String HttpResponse

/-- JSONPath evaluation (external `jsonpath_ng`): the values of the matches
of an expression against a document, in match order. -/
abbrev JFind := String → Json → List Json

/-! ## Metrics (`metrics.py`) -/

/-- `metrics.py::RequestRecord`.  The wall-clock `timestamp` field is not
modelled (it is never read by any code under verification). -/
structure RequestRecord where
  scenario : String
  method : String
  path : String
  latency_ms : ℚ
  status_code : Int
  success : Bool
  error : Option String := none
  deriving DecidableEq

/-- `metrics.py::ScenarioSummary`. -/
structure ScenarioSummary where
  name : String
  total_requests : Nat
  successful_requests : Nat
  failed_requests : Nat
  error_rate : ℚ
  latency_min_ms : ℚ
  latency_max_ms : ℚ
  latency_avg_ms : ℚ
  latency_p50_ms : ℚ
  latency_p95_ms : ℚ
  latency_p99_ms : ℚ
  requests_per_sec : ℚ
  deriving DecidableEq

/-- `metrics.py::MetricsSummary`. -/
structure MetricsSummary where
  total_requests : Nat
  successful_requests : Nat
  failed_requests : Nat
  error_rate : ℚ
  latency_min_ms : ℚ
  latency_max_ms : ℚ
  latency_avg_ms : ℚ
  latency_p50_ms : ℚ
  latency_p95_ms : ℚ
  latency_p99_ms : ℚ
  requests_per_sec : ℚ
  duration_seconds : ℚ
  scenarios : List ScenarioSummary := []
  deriving DecidableEq

/-- Python `int(q)`: truncation toward zero. -/
def pyTrunc (q : ℚ) : ℤ :=
  if 0 ≤ q then ⌊q⌋ else -⌊-q⌋

/-- `metrics.py::_percentile`: linear interpolation between order statistics
of an already-sorted list, clamped at the upper boundary. -/
def _percentile (sorted_values : List ℚ) (p : ℚ) : ℚ :=
  match sorted_values with
  | [] => 0
  | [x] => x
  | _ =>
    let k : ℚ := p / 100 * ((sorted_values.length : ℚ) - 1)
    let fl : ℤ := pyTrunc k
    let ce : ℤ := fl + 1
    if (sorted_values.length : ℤ) ≤ ce then
      sorted_values.getLastD 0
    else
      let frac : ℚ := k - (fl : ℚ)
      let lo := sorted_values.getD fl.toNat 0
      let hi := sorted_values.getD ce.toNat 0
      lo + frac * (hi - lo)

/-- `metrics.py::_compute_latency_stats`:
`(min, max, avg, p50, p95, p99)` of a list of latencies. -/
def _compute_latency_stats (latencies : List ℚ) : ℚ × ℚ × ℚ × ℚ × ℚ × ℚ :=
  match latencies with
  | [] => (0, 0, 0, 0, 0, 0)
  | _ =>
    let sorted_lat := latencies.mergeSort (fun a b => a ≤ b)
    (sorted_lat.headD 0,
     sorted_lat.getLastD 0,
     sorted_lat.sum / (sorted_lat.length : ℚ),
     _percentile sorted_lat 50,
     _percentile sorted_lat 95,
     _percentile sorted_lat 99)

/-- `metrics.py::MetricsCollector.record`: append an entry to the store. -/
def MetricsCollector.record (records : List RequestRecord) (r : RequestRecord) :
    List RequestRecord :=
  records ++ [r]

/-- `metrics.py::MetricsCollector._build_scenario_summary`. -/
def _build_scenario_summary (name : String) (records : List RequestRecord)
    (duration : ℚ) : ScenarioSummary :=
  let total := records.length
  let successful := (records.filter (fun r => r.success)).length
  let failed := total - successful
  let latencies := records.map (fun r => r.latency_ms)
  let stats := _compute_latency_stats latencies
  { name := name
    total_requests := total
    successful_requests := successful
    failed_requests := failed
    error_rate := if 0 < total then (failed : ℚ) / (total : ℚ) * 100 else 0
    latency_min_ms := stats.1
    latency_max_ms := stats.2.1
    latency_avg_ms := stats.2.2.1
    latency_p50_ms := stats.2.2.2.1
    latency_p95_ms := stats.2.2.2.2.1
    latency_p99_ms := stats.2.2.2.2.2
    requests_per_sec := if 0 < duration then (total : ℚ) / duration else 0 }

/-- `metrics.py::MetricsCollector.summary`.  The elapsed wall-clock duration
(`elapsed_seconds`) is supplied as a parameter.  Python's
`dict.setdefault` grouping visits scenario names in first-occurrence order,
which is exactly `(records.map scenario).dedup`. -/
def MetricsCollector.summary (records : List RequestRecord) (duration : ℚ) :
    MetricsSummary :=
  let total := records.length
  let successful := (records.filter (fun r => r.success)).length
  let failed := total - successful
  let latencies := records.map (fun r => r.latency_ms)
  let stats := _compute_latency_stats latencies
  let names := (records.map (fun r => r.scenario)).dedup
  { total_requests := total
    successful_requests := successful
    failed_requests := failed
    error_rate := if 0 < total then (failed : ℚ) / (total : ℚ) * 100 else 0
    latency_min_ms := stats.1
    latency_max_ms := stats.2.1
    latency_avg_ms := stats.2.2.1
    latency_p50_ms := stats.2.2.2.1
    latency_p95_ms := stats.2.2.2.2.1
    latency_p99_ms := stats.2.2.2.2.2
    requests_per_sec := if 0 < duration then (total : ℚ) / duration else 0
    duration_seconds := duration
    scenarios := names.map (fun n =>
      _build_scenario_summary n (records.filter (fun r => r.scenario = n)) duration) }

/-! ## Result assembler (`load_result.py`) -/

/-- `load_result.py::LoadTestResult` (rendering helpers excluded). -/
structure LoadTestResult where
  test_name : String
  users : Int
  ramp_up_seconds : ℚ
  target_duration_seconds : ℚ
  summary : MetricsSummary
  auth_success : Option Bool := none
  auth_error : Option String := none
  deriving DecidableEq

/-- `load_result.py::LoadTestResult.success`: auth did not explicitly fail
and the aggregate error rate is exactly zero. -/
def LoadTestResult.success (r : LoadTestResult) : Bool :=
  if r.auth_success = some false then false
  else decide (r.summary.error_rate = 0)

/-- `load_result.py::LoadTestResult.total_requests`. -/
def LoadTestResult.total_requests (r : LoadTestResult) : Nat :=
  r.summary.total_requests

/-- `load_result.py::LoadTestResult.failed`. -/
def LoadTestResult.failed (r : LoadTestResult) : Nat :=
  r.summary.failed_requests

/-! ## Scenario steps (`model/scenario.py`) -/

/-- The four JSON check kinds. -/
inductive JsonCheckKind where
  | isArray
  | notEmpty
  | equals
  | hasSize
  deriving DecidableEq

/-- `model/scenario.py::JsonCheck`. -/
structure JsonCheck where
  kind : JsonCheckKind
  value : Option ValueOrRef := none
  size : Option Int := none
  deriving DecidableEq

/-- The closed set of step variants `Request | ExpectStatus | ExpectJson`. -/
inductive Step where
  | request (method : String) (path : String)
  | expectStatus (code : Int)
  | expectJson (path : String) (check : JsonCheck)
  deriving DecidableEq

/-- `model/scenario.py::Scenario`: a name and its ordered steps. -/
structure Scenario where
  name : String
  steps : List Step
  deriving DecidableEq

/-! ## Assertion steps (shared by `executor.py` and `load_executor.py`) -/

/-- A raised Python exception, split the way the per-iteration interpreter
catches it: `AssertionError` is recorded, anything else propagates. -/
inductive StepFailure where
  | assertion (msg : String)
  | hard (msg : String)
  deriving DecidableEq

/-- `_run_expect_status_step`: `some` assertion message on mismatch. -/
def _run_expect_status_step (last_response : HttpResponse) (code : Int) :
    Option String :=
  if last_response.status_code ≠ code then
    some ("Expected status " ++ toString code ++ ", got "
      ++ toString last_response.status_code)
  else
    none

/-- `_first_match_value`: head of the match list, or an `AssertionError`. -/
def _first_match_value (matchvs : List Json) (json_path_literal : String) :
    Except String Json :=
  match matchvs with
  | [] => Except.error ("JSONPath did not match anything: "
      ++ stripQuotes json_path_literal)
  | v :: _ => Except.ok v

/-- The Python `repr` of an optional expected size (`None` when unset). -/
def pySizeRepr : Option Int → String
  | none => "None"
  | some n => toString n

/-- `_run_expect_json_step`: evaluate the JSONPath against the decoded body
and apply the configured check.  `AssertionError`s become
`StepFailure.assertion`; errors raised by `resolve_value_or_ref` inside the
`equals` branch are not `AssertionError`s and become `StepFailure.hard`. -/
def _run_expect_json_step (jfind : JFind) (last_response : HttpResponse)
    (path : String) (check : JsonCheck) (ctx : Ctx) :
    Except StepFailure Unit :=
  let matchvs := jfind (stripQuotes path) last_response.body
  match check.kind with
  | .isArray =>
    match _first_match_value matchvs path with
    | Except.error m => Except.error (.assertion m)
    | Except.ok v =>
      match v with
      | .arr _ => Except.ok ()
      | _ => Except.error (.assertion
          ("Expected JSON path to be array, got: <class " ++ squote
            ++ v.pyType ++ squote ++ ">"))
  | .notEmpty =>
    match _first_match_value matchvs path with
    | Except.error m => Except.error (.assertion m)
    | Except.ok v =>
      if v.truthy then Except.ok ()
      else Except.error (.assertion
        ("Expected JSON path to be not empty, got a falsy value"))
  | .equals =>
    match resolve_value_or_ref check.value ctx with
    | Except.error e => Except.error (.hard e)
    | Except.ok expected =>
      match _first_match_value matchvs path with
      | Except.error m => Except.error (.assertion m)
      | Except.ok v =>
        match v with
        | .str s =>
          if s = expected then Except.ok ()
          else Except.error (.assertion
            ("JSON value mismatch, expected: " ++ squote ++ expected ++ squote
              ++ ", got: " ++ squote ++ s ++ squote))
        | _ => Except.error (.assertion
            ("JSON value mismatch, expected: " ++ squote ++ expected ++ squote
              ++ ", got a non-string value"))
  | .hasSize =>
    match _first_match_value matchvs path with
    | Except.error m => Except.error (.assertion m)
    | Except.ok v =>
      match v with
      | .arr items =>
        if check.size = some (items.length : Int) then Except.ok ()
        else Except.error (.assertion
          ("JSON size mismatch, expected: " ++ pySizeRepr check.size
            ++ ", got: " ++ toString (items.length : Int)))
      | .obj fields =>
        if check.size = some (fields.length : Int) then Except.ok ()
        else Except.error (.assertion
          ("JSON size mismatch, expected: " ++ pySizeRepr check.size
            ++ ", got: " ++ toString (fields.length : Int)))
      | .str s =>
        if check.size = some (s.length : Int) then Except.ok ()
        else Except.error (.assertion
          ("JSON size mismatch, expected: " ++ pySizeRepr check.size
            ++ ", got: " ++ toString (s.length : Int)))
      | _ => Except.error (.assertion
          ("Expected JSON path to be sized (list/dict/str), got: <class "
            ++ squote ++ v.pyType ++ squote ++ ">"))

/-! ## Per-iteration interpreter with metrics (`load_executor.py`) -/

/-- `load_executor.py::_mark_last_record_failed`: flip the most recently
appended record to failed and set its error text (no-op on an empty store). -/
def _mark_last_record_failed (records : List RequestRecord) (error : String) :
    List RequestRecord :=
  match records.getLast? with
  | none => records
  | some last =>
    records.dropLast ++ [{ last with success := false, error := some error }]

/-- The step loop of `load_executor.py::run_scenario_async`, threading the
response cursor and the metrics record store.  The returned `Except` is the
exception channel of the coroutine: `Except.error` is a raised (hard) error,
while transport failures and assertion failures end the iteration normally
after updating the store. -/
def runStepsAsync (jfind : JFind) (transport : Transport) (ctx : Ctx)
    (scenario_name : String) :
    List Step → Option HttpResponse → List RequestRecord →
      List RequestRecord × Except String Unit
  | [], _, records => (records, Except.ok ())
  | Step.request method path :: rest, _, records =>
    match interpolate path ctx with
    | Except.error e => (records, Except.error e)
    | Except.ok p =>
      match transport method p with
      | (latency_ms, Except.ok resp) =>
        runStepsAsync jfind transport ctx scenario_name rest (some resp)
          (MetricsCollector.record records
            { scenario := scenario_name, method := method, path := p,
              latency_ms := latency_ms, status_code := resp.status_code,
              success := true })
      | (latency_ms, Except.error exc) =>
        (MetricsCollector.record records
          { scenario := scenario_name, method := method, path := p,
            latency_ms := latency_ms, status_code := 0,
            success := false, error := some exc },
         Except.ok ())
  | Step.expectStatus code :: rest, last_response, records =>
    match last_response with
    | none => (records, Except.error "expect status used before any request")
    | some resp =>
      match _run_expect_status_step resp code with
      | none => runStepsAsync jfind transport ctx scenario_name rest (some resp) records
      | some msg => (_mark_last_record_failed records msg, Except.ok ())
  | Step.expectJson path check :: rest, last_response, records =>
    match last_response with
    | none => (records, Except.error "expect json used before any request")
    | some resp =>
      match _run_expect_json_step jfind resp path check ctx with
      | Except.ok () => runStepsAsync jfind transport ctx scenario_name rest (some resp) records
      | Except.error (.assertion msg) => (_mark_last_record_failed records msg, Except.ok ())
      | Except.error (.hard msg) => (records, Except.error msg)

/-- `load_executor.py::run_scenario_async`: one full pass of a scenario,
recording each request; the cursor starts empty. -/
def run_scenario_async (jfind : JFind) (transport : Transport) (ctx : Ctx)
    (scenario : Scenario) (records : List RequestRecord) :
    List RequestRecord × Except String Unit :=
  runStepsAsync jfind transport ctx (stripQuotes scenario.name)
    scenario.steps none records

/-- The `single_pass` branch of `load_executor.py::_virtual_user`: run every
scenario once, in order; a raised error aborts this user's remaining
scenarios (the records collected so far stay in the store). -/
def _virtual_user_single_pass (jfind : JFind) (transport : Transport)
    (ctx : Ctx) :
    List Scenario → List RequestRecord → List RequestRecord × Except String Unit
  | [], records => (records, Except.ok ())
  | sc :: rest, records =>
    match run_scenario_async jfind transport ctx sc records with
    | (records', Except.ok ()) =>
      _virtual_user_single_pass jfind transport ctx rest records'
    | (records', Except.error e) => (records', Except.error e)

/-- The single-pass task set of `run_load_test_async`: the virtual-user tasks
are created in spawn order and `asyncio.gather(…, return_exceptions=True)`
swallows any raised error, keeping the records collected so far.  With a
single user this sequential composition is the exact cooperative schedule;
it is also the schedule in which each spawned user runs to completion before
the next. -/
def _spawn_single_pass (jfind : JFind) (transport : Transport) (ctx : Ctx)
    (scenarios : List Scenario) :
    Nat → List RequestRecord → List RequestRecord
  | 0, records => records
  | n + 1, records =>
    _spawn_single_pass jfind transport ctx scenarios n
      (_virtual_user_single_pass jfind transport ctx scenarios records).1

/-- `load_executor.py::run_load_test_async`.  `users ≤ 0` fails fast;
otherwise single-pass mode is selected by `duration_seconds ≤ 0` (the
encoding of a missing `load` block, per the function's docstring).  The
outcome of continuous mode depends on wall-clock time and scheduling and is
supplied as the abstract parameter `continuousRecords`; ramp-up clamping and
the inter-user spawn delay only shape that real-time behaviour and are not
otherwise observable here. -/
def run_load_test_async (jfind : JFind) (transport : Transport)
    (scenarios : List Scenario) (ctx : Ctx)
    (num_users : Int) (ramp_up_seconds duration_seconds : ℚ)
    (continuousRecords : List RequestRecord) :
    Except String (List RequestRecord) :=
  if num_users ≤ 0 then
    Except.error "load.users must be > 0"
  else
    let single_pass := duration_seconds ≤ 0
    if single_pass then
      Except.ok (_spawn_single_pass jfind transport ctx scenarios num_users.toNat [])
    else
      Except.ok continuousRecords

/-! ## Single-pass executor (`executor.py`) -/

/-- The step loop of `executor.py::run_scenario`: counts issued requests;
every raised exception (hard error or `AssertionError`) propagates to the
caller, which treats the scenario as failed.  Assertion messages are those
of the shared expect-step runners. -/
def runStepsSync (jfind : JFind) (transport : Transport) (ctx : Ctx) :
    List Step → Option HttpResponse → Nat → Except String Nat
  | [], _, request_count => Except.ok request_count
  | Step.request method path :: rest, _, request_count =>
    match interpolate path ctx with
    | Except.error e => Except.error e
    | Except.ok p =>
      match transport method p with
      | (_, Except.ok resp) =>
        runStepsSync jfind transport ctx rest (some resp) (request_count + 1)
      | (_, Except.error exc) => Except.error exc
  | Step.expectStatus code :: rest, last_response, request_count =>
    match last_response with
    | none => Except.error "expect status used before any request"
    | some resp =>
      match _run_expect_status_step resp code with
      | none => runStepsSync jfind transport ctx rest (some resp) request_count
      | some msg => Except.error msg
  | Step.expectJson path check :: rest, last_response, request_count =>
    match last_response with
    | none => Except.error "expect json used before any request"
    | some resp =>
      match _run_expect_json_step jfind resp path check ctx with
      | Except.ok () => runStepsSync jfind transport ctx rest (some resp) request_count
      | Except.error (.assertion msg) => Except.error msg
      | Except.error (.hard msg) => Except.error msg

/-- `executor.py::run_scenario`: number of requests issued by one pass, or
the first raised exception. -/
def run_scenario (jfind : JFind) (transport : Transport) (ctx : Ctx)
    (scenario : Scenario) : Except String Nat :=
  runStepsSync jfind transport ctx scenario.steps none 0

/-! ## Auth preflight (`auth.py`) -/

/-- A `body` field of the auth block (`model/auth.py::BodyField`). -/
structure BodyField where
  name : String
  value : Option ValueOrRef
  deriving DecidableEq

/-- The `auth login` block (`model/auth.py::AuthLogin`). -/
structure AuthLogin where
  endpoint : Option ValueOrRef := none
  method : String := ""
  body : Option (List BodyField) := none
  format : String := ""
  deriving DecidableEq

/-- The transport used by the auth preflight: method, resolved endpoint and
JSON payload to either a response or a raised network error. -/
abbrev AuthTransport := String → String → Json → Except String HttpResponse

/-- The payload loop of `auth.py::run_auth_login`: each body field resolved
through the same value-or-reference resolution as variables. -/
def authPayload (fields : List BodyField) (ctx : Ctx) :
    Except String (List (String × String)) :=
  fields.foldlM
    (fun acc f =>
      match f.value with
      | none => Except.error ("auth.login body field " ++ squote ++ f.name
          ++ squote ++ " missing value")
      | some v =>
        match resolve_value_or_ref (some v) ctx with
        | Except.ok s => Except.ok (acc ++ [(f.name, s)])
        | Except.error e => Except.error e)
    []

/-- `auth.py::run_auth_login`: one login call; non-2xx raises
(`raise_for_status`), then the JSONPath `format` must select a non-empty
string token. -/
def run_auth_login (jfind : JFind) (authTransport : AuthTransport)
    (auth : AuthLogin) (ctx : Ctx) : Except String String :=
  match auth.endpoint with
  | none => Except.error "auth.login missing endpoint"
  | some ep =>
    match auth.body with
    | none => Except.error "auth.login missing body"
    | some fields =>
      match resolve_value_or_ref (some ep) ctx with
      | Except.error e => Except.error e
      | Except.ok endpoint =>
        match authPayload fields ctx with
        | Except.error e => Except.error e
        | Except.ok payload =>
          match authTransport auth.method endpoint
              (Json.obj (payload.map (fun p => (p.1, Json.str p.2)))) with
          | Except.error e => Except.error e
          | Except.ok resp =>
            if ¬ (200 ≤ resp.status_code ∧ resp.status_code < 300) then
              Except.error ("auth.login received status "
                ++ toString resp.status_code)
            else
              let fmt := stripQuotes auth.format
              match jfind fmt resp.body with
              | [] => Except.error ("auth.login token not found using format "
                  ++ fmt)
              | token :: _ =>
                match token with
                | Json.str s =>
                  if s ≠ "" then Except.ok s
                  else Except.error
                    "auth.login extracted token is not a non-empty string"
                | _ => Except.error
                    "auth.login extracted token is not a non-empty string"

/-! ## Single-pass runner (`runner.py`) -/

/-- `runner.py::AuthResult`. -/
structure AuthResult where
  endpoint : String
  method : String
  duration_seconds : ℚ
  success : Bool
  error : Option String := none
  deriving DecidableEq

/-- `runner.py::ScenarioResult`. -/
structure ScenarioResult where
  name : String
  requests : Nat := 0
  success : Bool := true
  error : Option String := none
  deriving DecidableEq

/-- `runner.py::RunResult` (rendering helpers excluded). -/
structure RunResult where
  test_name : String
  duration_seconds : ℚ
  scenarios : List ScenarioResult := []
  auth : Option AuthResult := none
  deriving DecidableEq

/-- `runner.py::RunResult.total_requests`: scenario requests plus one for the
login call whenever an auth block ran (`if self.auth:` tests presence, not
success). -/
def RunResult.total_requests (r : RunResult) : Nat :=
  (r.scenarios.map (fun s => s.requests)).sum
    + (if r.auth.isSome then 1 else 0)

/-- `runner.py::RunResult.failed`: failed scenarios, plus one if the auth
block ran and failed. -/
def RunResult.failed (r : RunResult) : Nat :=
  (r.scenarios.filter (fun s => !s.success)).length
    + (match r.auth with
       | some a => if !a.success then 1 else 0
       | none => 0)

/-- The `test` node consumed by the runner (`model/core.py::Test`, with the
`auth` block the runner reads from it). -/
structure Test where
  name : String
  environment : Option (List EnvVarB) := none
  target : Option TargetB := none
  variablesB : Option (List VarEntry) := none
  auth : Option AuthLogin := none
  scenarios : List Scenario := []
  deriving DecidableEq

/-- The endpoint string the runner displays for the auth block:
`t.auth.endpoint.value.strip('"') if t.auth.endpoint.value else
f"#\x7b…ref.name\x7d"`.  An absent endpoint or reference makes that Python
expression raise an `AttributeError`, which propagates out of `run_test`. -/
def auth_endpoint_str (ep : Option ValueOrRef) : Except String String :=
  match ep with
  | none => Except.error "AttributeError: auth endpoint is missing"
  | some v =>
    if v.value ≠ "" then Except.ok (stripQuoteChars v.value)
    else
      match v.ref with
      | some r => Except.ok ("#" ++ r)
      | none => Except.error "AttributeError: auth endpoint reference is missing"

/-- `runner.py::run_test`.  Wall-clock durations are not modelled and appear
as `0` in the result.  The auth `try/except Exception` block means both a
failing login and an `authToken` reserved-name conflict surface as a failed
auth outcome; an auth failure returns early with an empty scenario list.
Scenario exceptions are caught per scenario, leaving `requests` at `0`. -/
def run_test (jfind : JFind) (osEnv : Ctx) (authTransport : AuthTransport)
    (transport : Transport) (model : Option Test) : Except String RunResult :=
  match model with
  | none => Except.error "Invalid model: missing test block."
  | some t =>
    match resolve_env osEnv t.environment with
    | Except.error e => Except.error e
    | Except.ok env_map =>
      match resolve_variables t.variablesB env_map with
      | Except.error e => Except.error e
      | Except.ok vars_map =>
        match build_context env_map vars_map with
        | Except.error e => Except.error e
        | Except.ok ctx =>
          match resolve_target t.target ctx with
          | Except.error e => Except.error e
          | Except.ok base_url =>
            if base_url.getD "" = "" then Except.error "Missing target."
            else
              match t.auth with
              | some a =>
                let authRun :=
                  match run_auth_login jfind authTransport a ctx with
                  | Except.ok token =>
                    if (List.lookup "authToken" ctx).isSome then
                      (false,
                       some ("Reserved name conflict: " ++ squote ++ "authToken"
                         ++ squote ++ " already defined."),
                       ctx)
                    else (true, none, dictInsert ctx "authToken" token)
                  | Except.error e => (false, some e, ctx)
                match auth_endpoint_str a.endpoint with
                | Except.error e => Except.error e
                | Except.ok endpoint_str =>
                  let auth_result : AuthResult :=
                    { endpoint := endpoint_str, method := a.method,
                      duration_seconds := 0, success := authRun.1,
                      error := authRun.2.1 }
                  if ¬ authRun.1 then
                    Except.ok
                      { test_name := stripQuoteChars t.name,
                        duration_seconds := 0, scenarios := [],
                        auth := some auth_result }
                  else
                    Except.ok
                      { test_name := stripQuoteChars t.name,
                        duration_seconds := 0,
                        scenarios := t.scenarios.map (fun sc =>
                          match run_scenario jfind transport authRun.2.2 sc with
                          | Except.ok n =>
                            { name := sc.name, requests := n, success := true }
                          | Except.error e =>
                            { name := sc.name, requests := 0, success := false,
                              error := some e }),
                        auth := some auth_result }
              | none =>
                Except.ok
                  { test_name := stripQuoteChars t.name,
                    duration_seconds := 0,
                    scenarios := t.scenarios.map (fun sc =>
                      match run_scenario jfind transport ctx sc with
                      | Except.ok n =>
                        { name := sc.name, requests := n, success := true }
                      | Except.error e =>
                        { name := sc.name, requests := 0, success := false,
                          error := some e }),
                    auth := none }

/-! # Auxiliary lemmas about the dict model -/

/-- First-match lookup distributes over list append. -/
theorem lookup_append (m₁ m₂ : Ctx) (k : String) :
    List.lookup k (m₁ ++ m₂) = (List.lookup k m₁).or (List.lookup k m₂) := by
  induction m₁ with
  | nil => simp [List.lookup]
  | cons a t ih =>
    obtain ⟨a1, a2⟩ := a
    by_cases h : k = a1
    · subst h; simp [List.lookup_cons]
    · simp [List.lookup_cons, beq_false_of_ne h, ih]

/-- Replacing the entries of one key leaves lookups of other keys alone. -/
theorem lookup_map_replace_ne (m : Ctx) (k v k' : String) (hne : k' ≠ k) :
    List.lookup k' (m.map (fun p => if p.1 = k then (k, v) else p))
      = List.lookup k' m := by
  induction m with
  | nil => simp
  | cons a t ih =>
    obtain ⟨a1, a2⟩ := a
    by_cases hak : a1 = k
    · subst hak
      simp [List.lookup_cons, beq_false_of_ne hne, ih]
    · by_cases hk' : k' = a1
      · subst hk'
        simp [List.lookup_cons, hak]
      · simp [List.lookup_cons, hak, beq_false_of_ne hk', ih]

/-- Replacing the entries of a bound key makes its lookup the new value. -/
theorem lookup_map_replace_eq (m : Ctx) (k v : String)
    (h : (List.lookup k m).isSome) :
    List.lookup k (m.map (fun p => if p.1 = k then (k, v) else p)) = some v := by
  induction m with
  | nil => simp [List.lookup] at h
  | cons a t ih =>
    obtain ⟨a1, a2⟩ := a
    by_cases hak : a1 = k
    · subst hak
      simp [List.lookup_cons]
    · have hk : k ≠ a1 := fun he => hak he.symm
      rw [List.lookup_cons] at h
      rw [beq_false_of_ne hk] at h
      simp [List.lookup_cons, hak, beq_false_of_ne hk, ih h]

/-- Lookup after a Python dict assignment `m[k] = v`. -/
theorem lookup_dictInsert (m : Ctx) (k v k' : String) :
    List.lookup k' (dictInsert m k v)
      = if k' = k then some v else List.lookup k' m := by
  unfold dictInsert
  by_cases h : (List.lookup k m).isSome
  · rw [if_pos h]
    by_cases hk : k' = k
    · subst hk; rw [if_pos rfl]; exact lookup_map_replace_eq m k' v h
    · rw [if_neg hk]; exact lookup_map_replace_ne m k v k' hk
  · rw [if_neg h]
    rw [lookup_append]
    by_cases hk : k' = k
    · subst hk
      rw [Option.not_isSome_iff_eq_none] at h
      simp [h, List.lookup]
    · simp [List.lookup, beq_false_of_ne hk, hk]

/-- Lookup in the Python merge `\x7b**a, **b\x7d`: the *last* binding of `b`
wins, then `a` is consulted. -/
theorem lookup_pyUnion (a b : Ctx) (k : String) :
    List.lookup k (pyUnion a b)
      = (List.lookup k b.reverse).or (List.lookup k a) := by
  induction b generalizing a with
  | nil => simp [pyUnion]
  | cons p t ih =>
    obtain ⟨p1, p2⟩ := p
    show List.lookup k (pyUnion (dictInsert a p1 p2) t) = _
    rw [ih]
    rw [List.reverse_cons, lookup_append, lookup_dictInsert]
    by_cases hk : k = p1
    · rw [if_pos hk]
      subst hk
      cases hx : List.lookup k t.reverse <;>
        simp [hx, Option.or, List.lookup_cons]
    · rw [if_neg hk]
      cases hx : List.lookup k t.reverse <;>
        simp [hx, List.lookup_cons, beq_false_of_ne hk, Option.or]

/-- A key is absent from the lookup table iff it is not among the keys. -/
theorem lookup_eq_none_iff (m : Ctx) (k : String) :
    List.lookup k m = none ↔ k ∉ m.map Prod.fst := by
  induction m with
  | nil => simp
  | cons a t ih =>
    obtain ⟨a1, a2⟩ := a
    by_cases h : k = a1
    · subst h
      simp [List.lookup_cons]
    · simp [List.lookup_cons, beq_false_of_ne h, h, ih]

/-- Summing an indicator over a list counts the occurrences. -/
theorem sum_ite_eq_count {β : Type} [DecidableEq β] (c : β) (L : List β) :
    (L.map (fun b => if c = b then (1 : ℕ) else 0)).sum = L.count c := by
  induction L with
  | nil => simp
  | cons b t ih =>
    rw [List.map_cons, List.sum_cons, ih, List.count_cons]
    by_cases h : c = b
    · simp [h, Nat.add_comm]
    · have hbc : ¬ b = c := fun he => h he.symm
      simp [h, hbc]

/-- Pointwise sums of mapped lists split. -/
theorem sum_map_add {α : Type} (f g : α → ℕ) (L : List α) :
    (L.map (fun x => f x + g x)).sum = (L.map f).sum + (L.map g).sum := by
  induction L with
  | nil => simp
  | cons a t ih => simp [ih]; omega

/-- Grouping a list by the value of `f` partitions it: the filtered group
sizes over the deduplicated image sum to the total length. -/
theorem sum_filter_dedup {α β : Type} [DecidableEq β] (f : α → β) (l : List α) :
    ((l.map f).dedup.map
      (fun b => (l.filter (fun a => f a = b)).length)).sum = l.length := by
  induction l with
  | nil => simp
  | cons a t ih =>
    rw [List.map_cons]
    by_cases h : f a ∈ t.map f
    · rw [List.dedup_cons_of_mem h]
      have hsplit : ∀ b, ((a :: t).filter (fun x => f x = b)).length
          = (if f a = b then 1 else 0) + (t.filter (fun x => f x = b)).length := by
        intro b
        by_cases hb : f a = b <;> simp [List.filter, hb] <;> omega
      rw [List.map_congr_left (fun b _ => hsplit b)]
      rw [sum_map_add (fun b => if f a = b then 1 else 0)
        (fun b => (t.filter (fun x => f x = b)).length)]
      rw [ih, sum_ite_eq_count, List.count_dedup]
      rw [if_pos h]
      simp [Nat.add_comm]
    · rw [List.dedup_cons_of_not_mem h]
      rw [List.map_cons, List.sum_cons]
      have hhead : ((a :: t).filter (fun x => f x = f a)).length = 1 := by
        have hnil : t.filter (fun x => f x = f a) = [] := by
          rw [List.filter_eq_nil_iff]
          intro x hx hfx
          exact h (List.mem_map.mpr ⟨x, hx, by simpa using hfx⟩)
        simp [List.filter, hnil]
      have hrest : ∀ b ∈ (t.map f).dedup,
          ((a :: t).filter (fun x => f x = b)).length
            = (t.filter (fun x => f x = b)).length := by
        intro b hb
        have hab : ¬ (f a = b) := fun he =>
          h (by rw [he]; exact (List.mem_dedup).mp hb)
        simp [List.filter, hab]
      rw [hhead, List.map_congr_left hrest, ih]
      simp [Nat.add_comm]

/-- Insertion keeps exactly the old elements plus the inserted one. -/
theorem mem_insertSorted (k x : String) (l : List String) :
    k ∈ insertSorted x l ↔ k = x ∨ k ∈ l := by
  induction l with
  | nil => simp [insertSorted]
  | cons y ys ih =>
    by_cases h : x ≤ y
    · simp [insertSorted, h]
    · simp [insertSorted, h, ih]
      tauto

/-- Sorting preserves membership. -/
theorem mem_pySorted (k : String) (l : List String) :
    k ∈ pySorted l ↔ k ∈ l := by
  induction l with
  | nil => simp [pySorted]
  | cons y ys ih =>
    show k ∈ insertSorted y (pySorted ys) ↔ _
    rw [mem_insertSorted, ih]
    simp

/-- With pairwise-distinct keys (a dict invariant) first-match lookup does
not depend on the order of the entries. -/
theorem lookup_reverse_of_nodup (m : Ctx) (h : (m.map Prod.fst).Nodup)
    (k : String) : List.lookup k m.reverse = List.lookup k m := by
  induction m with
  | nil => simp
  | cons p t ih =>
    obtain ⟨p1, p2⟩ := p
    rw [List.map_cons, List.nodup_cons] at h
    rw [List.reverse_cons, lookup_append]
    by_cases hk : k = p1
    · subst hk
      have hnone : List.lookup k t.reverse = none := by
        rw [lookup_eq_none_iff, List.map_reverse, List.mem_reverse]
        exact h.1
      simp [hnone, List.lookup_cons, Option.or]
    · rw [ih h.2]
      cases hx : List.lookup k t <;>
        simp [hx, List.lookup_cons, beq_false_of_ne hk, Option.or]

/-! # Theorems about the claims -/

/-- **C10.**  For every record list and elapsed duration, the computed
summary satisfies: `total_requests` is the number of records;
`successful_requests + failed_requests = total_requests`; the error rate is
`failed/total*100` (and `0` for no records); and the per-scenario summaries
partition the records — the summary names are exactly the distinct scenario
names, in first-occurrence order, and the per-scenario totals sum to the
overall total. -/
theorem C10_summary_invariants (records : List RequestRecord) (duration : ℚ) :
    (MetricsCollector.summary records duration).total_requests = records.length ∧
    (MetricsCollector.summary records duration).successful_requests
        + (MetricsCollector.summary records duration).failed_requests
      = (MetricsCollector.summary records duration).total_requests ∧
    (records ≠ [] →
      (MetricsCollector.summary records duration).error_rate
        = ((MetricsCollector.summary records duration).failed_requests : ℚ)
            / ((MetricsCollector.summary records duration).total_requests : ℚ)
            * 100) ∧
    (records = [] → (MetricsCollector.summary records duration).error_rate = 0) ∧
    (MetricsCollector.summary records duration).scenarios.map
        (fun s => s.name)
      = (records.map (fun r => r.scenario)).dedup ∧
    ((MetricsCollector.summary records duration).scenarios.map
        (fun s => s.total_requests)).sum
      = (MetricsCollector.summary records duration).total_requests := by
  have hsum : ∀ r : List RequestRecord, ∀ d : ℚ,
      MetricsCollector.summary r d
        = { total_requests := r.length,
            successful_requests := (r.filter (fun x => x.success)).length,
            failed_requests := r.length - (r.filter (fun x => x.success)).length,
            error_rate := if 0 < r.length
              then ((r.length - (r.filter (fun x => x.success)).length : ℕ) : ℚ)
                / (r.length : ℚ) * 100 else 0,
            latency_min_ms := (_compute_latency_stats (r.map (fun x => x.latency_ms))).1,
            latency_max_ms := (_compute_latency_stats (r.map (fun x => x.latency_ms))).2.1,
            latency_avg_ms := (_compute_latency_stats (r.map (fun x => x.latency_ms))).2.2.1,
            latency_p50_ms := (_compute_latency_stats (r.map (fun x => x.latency_ms))).2.2.2.1,
            latency_p95_ms := (_compute_latency_stats (r.map (fun x => x.latency_ms))).2.2.2.2.1,
            latency_p99_ms := (_compute_latency_stats (r.map (fun x => x.latency_ms))).2.2.2.2.2,
            requests_per_sec := if 0 < d then (r.length : ℚ) / d else 0,
            duration_seconds := d,
            scenarios := ((r.map (fun x => x.scenario)).dedup).map (fun n =>
              _build_scenario_summary n (r.filter (fun x => x.scenario = n)) d) } :=
    fun r d => rfl
  refine ⟨by rw [hsum], ?_, ?_, ?_, ?_, ?_⟩
  · rw [hsum]
    have hle : (records.filter (fun x => x.success)).length ≤ records.length :=
      List.length_filter_le _ _
    show (records.filter (fun x => x.success)).length
        + (records.length - (records.filter (fun x => x.success)).length)
      = records.length
    omega
  · intro hne
    rw [hsum]
    have hpos : 0 < records.length := List.length_pos.mpr hne
    show (if 0 < records.length then _ else _) = _
    rw [if_pos hpos]
  · intro hnil
    subst hnil
    rfl
  · rw [hsum]
    show ((((records.map (fun x => x.scenario)).dedup).map (fun n =>
        _build_scenario_summary n (records.filter (fun x => x.scenario = n))
          duration)).map (fun s => s.name))
      = (records.map (fun x => x.scenario)).dedup
    rw [List.map_map]
    have hid : ((fun s : ScenarioSummary => s.name) ∘ (fun n =>
        _build_scenario_summary n (records.filter (fun x => x.scenario = n))
          duration)) = fun n => n := funext fun n => rfl
    rw [hid]
    simp
  · rw [hsum]
    show (List.map (fun s : ScenarioSummary => s.total_requests)
        (((records.map (fun x => x.scenario)).dedup).map (fun n =>
          _build_scenario_summary n (records.filter (fun x => x.scenario = n))
            duration))).sum = records.length
    rw [List.map_map]
    have hcomp : ((fun s : ScenarioSummary => s.total_requests) ∘ (fun n =>
        _build_scenario_summary n (records.filter (fun x => x.scenario = n))
          duration))
      = fun n => (records.filter (fun x => x.scenario = n)).length :=
      funext fun n => rfl
    rw [hcomp]
    exact sum_filter_dedup (fun x => x.scenario) records

/-- **C10 witness.**  The invariants instantiated on a two-record store with
one failure across two scenarios. -/
theorem C10_summary_invariants_witness :
    (MetricsCollector.summary
      [{ scenario := "s1", method := "GET", path := "/a", latency_ms := 1,
         status_code := 200, success := true, error := none },
       { scenario := "s2", method := "GET", path := "/b", latency_ms := 2,
         status_code := 500, success := false, error := some "boom" }]
      2).total_requests = 2 ∧
    (MetricsCollector.summary
      [{ scenario := "s1", method := "GET", path := "/a", latency_ms := 1,
         status_code := 200, success := true, error := none },
       { scenario := "s2", method := "GET", path := "/b", latency_ms := 2,
         status_code := 500, success := false, error := some "boom" }]
      2).scenarios.map (fun s => s.name) = ["s1", "s2"] ∧
    ((MetricsCollector.summary
      [{ scenario := "s1", method := "GET", path := "/a", latency_ms := 1,
         status_code := 200, success := true, error := none },
       { scenario := "s2", method := "GET", path := "/b", latency_ms := 2,
         status_code := 500, success := false, error := some "boom" }]
      2).scenarios.map (fun s => s.total_requests)).sum = 2 ∧
    (MetricsCollector.summary
      [{ scenario := "s1", method := "GET", path := "/a", latency_ms := 1,
         status_code := 200, success := true, error := none },
       { scenario := "s2", method := "GET", path := "/b", latency_ms := 2,
         status_code := 500, success := false, error := some "boom" }]
      2).error_rate
      = ((MetricsCollector.summary
          [{ scenario := "s1", method := "GET", path := "/a", latency_ms := 1,
             status_code := 200, success := true, error := none },
           { scenario := "s2", method := "GET", path := "/b", latency_ms := 2,
             status_code := 500, success := false, error := some "boom" }]
          2).failed_requests : ℚ)
        / ((MetricsCollector.summary
            [{ scenario := "s1", method := "GET", path := "/a", latency_ms := 1,
               status_code := 200, success := true, error := none },
             { scenario := "s2", method := "GET", path := "/b", latency_ms := 2,
               status_code := 500, success := false, error := some "boom" }]
            2).total_requests : ℚ) * 100 := by
  have h := C10_summary_invariants
    [{ scenario := "s1", method := "GET", path := "/a", latency_ms := 1,
       status_code := 200, success := true, error := none },
     { scenario := "s2", method := "GET", path := "/b", latency_ms := 2,
       status_code := 500, success := false, error := some "boom" }] 2
  exact ⟨h.1, h.2.2.2.2.1.trans (by decide), h.2.2.2.2.2.trans h.1,
    h.2.2.1 (by decide)⟩

/-- **C5.**  For every metrics summary and auth outcome, the assembled
load-test result is overall successful if and only if auth did not
explicitly fail (`auth_success` is not `False`) and the aggregate error
rate is exactly zero. -/
theorem C5_success_iff (r : LoadTestResult) :
    r.success = true ↔ (r.auth_success ≠ some false ∧ r.summary.error_rate = 0) := by
  unfold LoadTestResult.success
  by_cases h : r.auth_success = some false <;> simp [h]

/-- **C7.**  `interpolate` first unquotes the template and then substitutes
every `$\x7bidentifier\x7d` occurrence with the context's value; substituted
values are spliced in verbatim (never rescanned — `x` and `y` below are
arbitrary and may themselves contain placeholders); an identifier absent
from the context fails with the unknown-variable error and no partially
substituted string is returned; in particular
`interpolate "$\x7ba\x7d-$\x7bb\x7d" \x7ba: "x", b: "y"\x7d = "x-y"`. -/
theorem C7_interpolate :
    (∀ (template : String) (ctx : Ctx),
      interpolate template ctx
        = interpGo ctx (stripQuotes template).toList.length
            (stripQuotes template).toList) ∧
    (∀ (ctx : Ctx) (x y : String),
      List.lookup "a" ctx = some x → List.lookup "b" ctx = some y →
      interpolate "$\x7ba\x7d-$\x7bb\x7d" ctx = Except.ok (x ++ "-" ++ y)) ∧
    (∀ (ctx : Ctx) (x : String),
      List.lookup "a" ctx = some x → List.lookup "b" ctx = none →
      interpolate "$\x7ba\x7d-$\x7bb\x7d" ctx = Except.error (unknownVarMsg "b")) := by
  refine ⟨fun template ctx => rfl, ?_, ?_⟩
  · intro ctx x y ha hb
    show interpGo ctx 9 ['$', '{', 'a', '}', '-', '$', '{', 'b', '}'] = _
    simp [interpGo, isIdentStart, isIdentChar, List.dropWhile, List.takeWhile,
      ha, hb, Except.map, String.append_assoc]
    rfl
  · intro ctx x ha hb
    show interpGo ctx 9 ['$', '{', 'a', '}', '-', '$', '{', 'b', '}'] = _
    simp [interpGo, isIdentStart, isIdentChar, List.dropWhile, List.takeWhile,
      ha, hb, Except.map]

/-- **C7 witness.**  The substitution theorem applied at the concrete context
`\x7ba: "x", b: "y"\x7d` from the spec's example. -/
theorem C7_interpolate_witness :
    interpolate "$\x7ba\x7d-$\x7bb\x7d" [("a", "x"), ("b", "y")]
      = Except.ok "x-y" :=
  C7_interpolate.2.1 [("a", "x"), ("b", "y")] "x" "y" rfl rfl

/-- **C6.**  For dict-shaped tables (pairwise-distinct keys), `build_context`
on disjoint key sets returns exactly the union of the two tables (every
lookup is served by whichever table binds the key); on intersecting key sets
it fails with the duplicate-binding error naming exactly the overlapping
keys, and never returns any table. -/
theorem C6_mergeContexts (env_map vars_map : Ctx)
    (hne : (env_map.map Prod.fst).Nodup) (hnv : (vars_map.map Prod.fst).Nodup) :
    ((∀ k, ¬ (k ∈ env_map.map Prod.fst ∧ k ∈ vars_map.map Prod.fst)) →
      build_context env_map vars_map = Except.ok (pyUnion env_map vars_map) ∧
      (∀ k, List.lookup k (pyUnion env_map vars_map)
          = (List.lookup k env_map).or (List.lookup k vars_map))) ∧
    ((∃ k, k ∈ env_map.map Prod.fst ∧ k ∈ vars_map.map Prod.fst) →
      build_context env_map vars_map
        = Except.error ("Duplicate names in environment and variables: "
            ++ String.intercalate ", " (duplicate_names env_map vars_map)) ∧
      (∀ k, k ∈ duplicate_names env_map vars_map
          ↔ (k ∈ env_map.map Prod.fst ∧ k ∈ vars_map.map Prod.fst)) ∧
      (∀ tbl, build_context env_map vars_map ≠ Except.ok tbl)) := by
  have hmem : ∀ k, k ∈ duplicate_names env_map vars_map
      ↔ (k ∈ env_map.map Prod.fst ∧ k ∈ vars_map.map Prod.fst) := by
    intro k
    rw [duplicate_names, mem_pySorted, List.mem_dedup, List.mem_filter]
    simp
  constructor
  · intro hdisj
    have hdup : duplicate_names env_map vars_map = [] := by
      apply List.eq_nil_iff_forall_not_mem.mpr
      intro k hk
      exact hdisj k ((hmem k).mp hk)
    refine ⟨by rw [build_context, hdup], ?_⟩
    intro k
    rw [lookup_pyUnion, lookup_reverse_of_nodup vars_map hnv]
    by_cases hk : k ∈ env_map.map Prod.fst
    · have hv : List.lookup k vars_map = none := by
        rw [lookup_eq_none_iff]
        exact fun hin => hdisj k ⟨hk, hin⟩
      rw [hv]
      cases hx : List.lookup k env_map <;> simp [Option.or]
    · have henv : List.lookup k env_map = none := (lookup_eq_none_iff _ _).mpr hk
      rw [henv]
      cases hx : List.lookup k vars_map <;> simp [Option.or]
  · intro hex
    have hne' : duplicate_names env_map vars_map ≠ [] := by
      obtain ⟨k0, hk0⟩ := hex
      intro h0
      have := (hmem k0).mpr hk0
      rw [h0] at this
      simp at this
    refine ⟨?_, hmem, ?_⟩
    · rw [build_context]
      cases hd : duplicate_names env_map vars_map with
      | nil => exact absurd hd hne'
      | cons d ds => rfl
    · intro tbl hok
      rw [build_context] at hok
      cases hd : duplicate_names env_map vars_map with
      | nil => exact hne' hd
      | cons d ds =>
        rw [hd] at hok
        exact Except.noConfusion hok

/-- **C6 witness.**  The disjoint pair `(\x7ba: 1\x7d, \x7bb: 2\x7d)` merges to
their union and the overlapping pair `(\x7ba: 1\x7d, \x7ba: 2\x7d)` fails with
the duplicate-binding error naming `a`. -/
theorem C6_mergeContexts_witness :
    build_context [("a", "1")] [("b", "2")] = Except.ok [("a", "1"), ("b", "2")] ∧
    build_context [("a", "1")] [("a", "2")]
      = Except.error ("Duplicate names in environment and variables: a") := by
  constructor
  · have h := ((C6_mergeContexts [("a", "1")] [("b", "2")] (by decide) (by decide)).1
      (by
        intro k hk
        have h1 : k = "a" := by simpa using hk.1
        have h2 : k = "b" := by simpa using hk.2
        rw [h1] at h2
        exact absurd h2 (by decide))).1
    rw [h]
    decide
  · have h := ((C6_mergeContexts [("a", "1")] [("a", "2")] (by decide) (by decide)).2
      ⟨"a", by decide, by decide⟩).1
    rw [h]
    decide

/-- **C1 counterexample.**  A run whose auth login returns 401 (a non-2xx
status, so the preflight fails): the returned `RunResult` reports a total
request count of 1 — the login call itself is counted by
`RunResult.total_requests` — not 0 as the claim states. -/
theorem C1_counterexample :
    (run_test (fun _ _ => []) []
        (fun _ _ _ => Except.ok { status_code := 401, body := Json.null })
        (fun _ _ => (0, Except.ok { status_code := 200, body := Json.null }))
        (some
          { name := "t", environment := none,
            target := some { ref := none, value := some "http://x" },
            variablesB := none,
            auth := some
              { endpoint := some { value := "/auth", ref := none },
                method := "POST", body := some [], format := "$.token" },
            scenarios := [{ name := "s", steps := [Step.request "GET" "/x"] }] })).map
      (fun r => (r.auth.map (fun ar => ar.success), r.scenarios.length,
        r.total_requests))
      = Except.ok (some false, 0, 1) ∧ (1 : Nat) ≠ 0 := by
  constructor
  · rfl
  · decide

/-- **C1 (amended).**  For every run whose auth preflight fails (network
error, non-2xx login status, JSONPath miss, or non-string/empty token — all
surfaced as an error from `run_auth_login`), the returned result has a
failed auth outcome carrying the cause, an empty scenario-result list, a
total request count of 1 (the failed login call itself is the one counted
request; no scenario request is ever issued), and one failure counted, so
the run renders as failed overall. -/
theorem C1_auth_failure_aborts_run (jfind : JFind) (osEnv : Ctx)
    (authTransport : AuthTransport) (transport : Transport) (t : Test)
    (a : AuthLogin) (env_map vars_map ctx : Ctx) (b e s : String)
    (hauth : t.auth = some a)
    (henv : resolve_env osEnv t.environment = Except.ok env_map)
    (hvars : resolve_variables t.variablesB env_map = Except.ok vars_map)
    (hctx : build_context env_map vars_map = Except.ok ctx)
    (htgt : resolve_target t.target ctx = Except.ok (some b))
    (hb : ¬ (b = ""))
    (hfail : run_auth_login jfind authTransport a ctx = Except.error e)
    (hep : auth_endpoint_str a.endpoint = Except.ok s) :
    (run_test jfind osEnv authTransport transport (some t)).map
        (fun r => (r.scenarios, r.auth.map (fun ar => (ar.success, ar.error)),
          r.total_requests, r.failed))
      = Except.ok ([], some (false, some e), 1, 1) := by
  simp only [run_test, henv, hvars, hctx, htgt, hauth, hfail, hep,
    Option.getD_some, hb, if_false, RunResult.total_requests, RunResult.failed,
    Except.map]
  simp [RunResult.total_requests, RunResult.failed]

/-- **C1 witness.**  The auth-failure theorem applied to the concrete 401
run of the counterexample. -/
theorem C1_auth_failure_aborts_run_witness :
    (run_test (fun _ _ => []) []
        (fun _ _ _ => Except.ok { status_code := 401, body := Json.null })
        (fun _ _ => (0, Except.ok { status_code := 200, body := Json.null }))
        (some
          { name := "t", environment := none,
            target := some { ref := none, value := some "http://x" },
            variablesB := none,
            auth := some
              { endpoint := some { value := "/auth", ref := none },
                method := "POST", body := some [], format := "$.token" },
            scenarios := [{ name := "s", steps := [Step.request "GET" "/x"] }] })).map
      (fun r => (r.scenarios, r.auth.map (fun ar => (ar.success, ar.error)),
        r.total_requests, r.failed))
      = Except.ok ([], some (false, some "auth.login received status 401"), 1, 1) :=
  C1_auth_failure_aborts_run (fun _ _ => []) []
    (fun _ _ _ => Except.ok { status_code := 401, body := Json.null })
    (fun _ _ => (0, Except.ok { status_code := 200, body := Json.null }))
    { name := "t", environment := none,
      target := some { ref := none, value := some "http://x" },
      variablesB := none,
      auth := some
        { endpoint := some { value := "/auth", ref := none },
          method := "POST", body := some [], format := "$.token" },
      scenarios := [{ name := "s", steps := [Step.request "GET" "/x"] }] }
    { endpoint := some { value := "/auth", ref := none },
      method := "POST", body := some [], format := "$.token" }
    [] [] [] "http://x" "auth.login received status 401" "/auth"
    rfl rfl rfl (by decide) rfl (by decide) rfl rfl

/-- **C2 counterexample.**  The claim says a configuration with
`users <= 0` executes in single-pass mode and does not fail; the
orchestrator instead fails fast with `load.users must be > 0`. -/
theorem C2_counterexample :
    run_load_test_async (fun _ _ => []) (fun _ _ => (0, Except.error "down"))
        [] [] 0 0 0 []
      = Except.error "load.users must be > 0" := by
  simp [run_load_test_async]

/-- **C2 (amended).**  A load configuration with an absent load profile
(encoded as `duration_seconds ≤ 0`) executes in single-pass mode: with one
virtual user the orchestrator returns successfully (no stop signal, no
failure) with the records of exactly one sequential pass of the scenario
list, in which each scenario of the list is run exactly once, in order.  A
configuration with `users ≤ 0` does not enter single-pass mode: the
orchestrator fails fast with `load.users must be > 0`. -/
theorem C2_single_pass_mode :
    (∀ (jfind : JFind) (transport : Transport) (scenarios : List Scenario)
       (ctx : Ctx) (ramp_up duration : ℚ) (cont : List RequestRecord),
      duration ≤ 0 →
      run_load_test_async jfind transport scenarios ctx 1 ramp_up duration cont
        = Except.ok
            (_virtual_user_single_pass jfind transport ctx scenarios []).1) ∧
    (∀ (jfind : JFind) (transport : Transport) (ctx : Ctx) (sc : Scenario)
       (scs : List Scenario) (records : List RequestRecord),
      (run_scenario_async jfind transport ctx sc records).2 = Except.ok () →
      _virtual_user_single_pass jfind transport ctx (sc :: scs) records
        = _virtual_user_single_pass jfind transport ctx scs
            (run_scenario_async jfind transport ctx sc records).1) ∧
    (∀ (jfind : JFind) (transport : Transport) (scenarios : List Scenario)
       (ctx : Ctx) (num_users : Int) (ramp_up duration : ℚ)
       (cont : List RequestRecord),
      num_users ≤ 0 →
      run_load_test_async jfind transport scenarios ctx num_users ramp_up
          duration cont
        = Except.error "load.users must be > 0") := by
  refine ⟨?_, ?_, ?_⟩
  · intro jfind transport scenarios ctx ramp_up duration cont hd
    rw [run_load_test_async]
    rw [if_neg (by norm_num)]
    rw [if_pos hd]
    rfl
  · intro jfind transport ctx sc scs records hok
    cases hpair : run_scenario_async jfind transport ctx sc records with
    | mk records' out =>
      rw [hpair] at hok
      cases out with
      | ok u =>
        cases u
        simp [_virtual_user_single_pass, hpair]
      | error e => simp at hok
  · intro jfind transport scenarios ctx num_users ramp_up duration cont hu
    rw [run_load_test_async]
    rw [if_pos hu]

/-- **C2 witness.**  One user, absent profile (`duration = 0`): the single
scenario's single request runs exactly once and the run ends successfully. -/
theorem C2_single_pass_mode_witness :
    run_load_test_async (fun _ _ => [])
        (fun _ _ => (1, Except.ok { status_code := 200, body := Json.null }))
        [{ name := "s", steps := [Step.request "GET" "/a"] }] [] 1 0 0 []
      = Except.ok
          [{ scenario := "s", method := "GET", path := "/a", latency_ms := 1,
             status_code := 200, success := true, error := none }] := by
  have h := C2_single_pass_mode.1 (fun _ _ => [])
    (fun _ _ => (1, Except.ok { status_code := 200, body := Json.null }))
    [{ name := "s", steps := [Step.request "GET" "/a"] }] [] 0 0 []
    (le_refl 0)
  rw [h]
  rfl

/-- **C4.**  A failing `ExpectStatus`/`ExpectJson` assertion after a
successful `Request` appends nothing: the record count is unchanged, only
the most recently appended record is mutated (success flipped to false,
error text set — for `ExpectStatus` it names both status codes), all
earlier records are untouched, and the remaining steps of the iteration are
skipped (the result does not depend on them).  Composed with the preceding
successful `Request`, the iteration contributes exactly one record, marked
failed. -/
theorem C4_assertion_marks_last_record :
    (∀ (inits : List RequestRecord) (last : RequestRecord) (msg : String),
      _mark_last_record_failed (inits ++ [last]) msg
        = inits ++ [{ last with success := false, error := some msg }]) ∧
    (∀ (jfind : JFind) (transport : Transport) (ctx : Ctx) (name : String)
       (code : Int) (rest : List Step) (resp : HttpResponse)
       (records : List RequestRecord),
      resp.status_code ≠ code →
      runStepsAsync jfind transport ctx name (Step.expectStatus code :: rest)
          (some resp) records
        = (_mark_last_record_failed records
            ("Expected status " ++ toString code ++ ", got "
              ++ toString resp.status_code), Except.ok ())) ∧
    (∀ (jfind : JFind) (transport : Transport) (ctx : Ctx) (name : String)
       (path : String) (check : JsonCheck) (rest : List Step)
       (resp : HttpResponse) (records : List RequestRecord) (msg : String),
      _run_expect_json_step jfind resp path check ctx
          = Except.error (StepFailure.assertion msg) →
      runStepsAsync jfind transport ctx name (Step.expectJson path check :: rest)
          (some resp) records
        = (_mark_last_record_failed records msg, Except.ok ())) ∧
    (∀ (jfind : JFind) (transport : Transport) (ctx : Ctx) (name : String)
       (m path p : String) (lat : ℚ) (resp : HttpResponse) (code : Int)
       (rest : List Step) (cur : Option HttpResponse)
       (records : List RequestRecord),
      interpolate path ctx = Except.ok p →
      transport m p = (lat, Except.ok resp) →
      resp.status_code ≠ code →
      runStepsAsync jfind transport ctx name
          (Step.request m path :: Step.expectStatus code :: rest) cur records
        = (records ++
            [{ scenario := name, method := m, path := p, latency_ms := lat,
               status_code := resp.status_code, success := false,
               error := some ("Expected status " ++ toString code ++ ", got "
                 ++ toString resp.status_code) }], Except.ok ())) ∧
    (∀ (jfind : JFind) (transport : Transport) (ctx : Ctx) (name : String)
       (m path p : String) (lat : ℚ) (resp : HttpResponse)
       (jpath : String) (check : JsonCheck) (rest : List Step)
       (cur : Option HttpResponse) (records : List RequestRecord) (msg : String),
      interpolate path ctx = Except.ok p →
      transport m p = (lat, Except.ok resp) →
      _run_expect_json_step jfind resp jpath check ctx
          = Except.error (StepFailure.assertion msg) →
      runStepsAsync jfind transport ctx name
          (Step.request m path :: Step.expectJson jpath check :: rest) cur records
        = (records ++
            [{ scenario := name, method := m, path := p, latency_ms := lat,
               status_code := resp.status_code, success := false,
               error := some msg }], Except.ok ())) := by
  have hmark : ∀ (inits : List RequestRecord) (last : RequestRecord)
      (msg : String),
      _mark_last_record_failed (inits ++ [last]) msg
        = inits ++ [{ last with success := false, error := some msg }] := by
    intro inits last msg
    rw [_mark_last_record_failed]
    rw [List.getLast?_concat]
    rw [List.dropLast_concat]
  have hstatus : ∀ (jfind : JFind) (transport : Transport) (ctx : Ctx)
      (name : String) (code : Int) (rest : List Step) (resp : HttpResponse)
      (records : List RequestRecord),
      resp.status_code ≠ code →
      runStepsAsync jfind transport ctx name (Step.expectStatus code :: rest)
          (some resp) records
        = (_mark_last_record_failed records
            ("Expected status " ++ toString code ++ ", got "
              ++ toString resp.status_code), Except.ok ()) := by
    intro jfind transport ctx name code rest resp records hne
    simp [runStepsAsync, _run_expect_status_step, hne]
  have hjson : ∀ (jfind : JFind) (transport : Transport) (ctx : Ctx)
      (name : String) (path : String) (check : JsonCheck) (rest : List Step)
      (resp : HttpResponse) (records : List RequestRecord) (msg : String),
      _run_expect_json_step jfind resp path check ctx
          = Except.error (StepFailure.assertion msg) →
      runStepsAsync jfind transport ctx name
          (Step.expectJson path check :: rest) (some resp) records
        = (_mark_last_record_failed records msg, Except.ok ()) := by
    intro jfind transport ctx name path check rest resp records msg hfail
    simp [runStepsAsync, hfail]
  refine ⟨hmark, hstatus, hjson, ?_, ?_⟩
  · intro jfind transport ctx name m path p lat resp code rest cur records
      hint htr hne
    have hreq : runStepsAsync jfind transport ctx name
        (Step.request m path :: Step.expectStatus code :: rest) cur records
      = runStepsAsync jfind transport ctx name (Step.expectStatus code :: rest)
          (some resp)
          (records ++
            [{ scenario := name, method := m, path := p, latency_ms := lat,
               status_code := resp.status_code, success := true }]) := by
      simp [runStepsAsync, hint, htr, MetricsCollector.record]
    rw [hreq, hstatus jfind transport ctx name code rest resp _ hne,
      hmark records _ _]
  · intro jfind transport ctx name m path p lat resp jpath check rest cur
      records msg hint htr hfail
    have hreq : runStepsAsync jfind transport ctx name
        (Step.request m path :: Step.expectJson jpath check :: rest) cur records
      = runStepsAsync jfind transport ctx name (Step.expectJson jpath check :: rest)
          (some resp)
          (records ++
            [{ scenario := name, method := m, path := p, latency_ms := lat,
               status_code := resp.status_code, success := true }]) := by
      simp [runStepsAsync, hint, htr, MetricsCollector.record]
    rw [hreq, hjson jfind transport ctx name jpath check rest resp _ msg hfail,
      hmark records _ _]

/-- **C4 witness.**  The spec's example: `expect json "$.results" hasSize 2`
against the body `\x7b"results": [1,2,3]\x7d` marks the preceding request's
record failed with the expected-2-got-3 message instead of appending a
second record. -/
theorem C4_assertion_marks_last_record_witness :
    runStepsAsync
        (fun path j =>
          if path = "$.results" then
            (match j with
             | Json.obj [("results", v)] => [v]
             | _ => [])
          else [])
        (fun _ _ => (5, Except.ok
          { status_code := 200,
            body := Json.obj [("results",
              Json.arr [Json.num 1, Json.num 2, Json.num 3])] }))
        [] "s"
        [Step.request "GET" "/items",
         Step.expectJson "$.results"
           { kind := JsonCheckKind.hasSize, value := none, size := some 2 }]
        none []
      = ([{ scenario := "s", method := "GET", path := "/items",
            latency_ms := 5, status_code := 200, success := false,
            error := some "JSON size mismatch, expected: 2, got: 3" }],
         Except.ok ()) :=
  C4_assertion_marks_last_record.2.2.2.2
    (fun path j =>
      if path = "$.results" then
        (match j with
         | Json.obj [("results", v)] => [v]
         | _ => [])
      else [])
    (fun _ _ => (5, Except.ok
      { status_code := 200,
        body := Json.obj [("results",
          Json.arr [Json.num 1, Json.num 2, Json.num 3])] }))
    [] "s" "GET" "/items" "/items" 5
    { status_code := 200,
      body := Json.obj [("results",
        Json.arr [Json.num 1, Json.num 2, Json.num 3])] }
    "$.results" { kind := JsonCheckKind.hasSize, value := none, size := some 2 }
    [] none [] "JSON size mismatch, expected: 2, got: 3"
    (by decide) rfl (by decide)

/-- Whether a step is an assertion step (not a `Request`). -/
def isExpect : Step → Bool
  | Step.request _ _ => false
  | Step.expectStatus _ => true
  | Step.expectJson _ _ => true

/-- The hard-error message raised when an assertion step runs on an empty
response cursor. -/
def expectErrMsg : Step → String
  | Step.request _ _ => ""
  | Step.expectStatus _ => "expect status used before any request"
  | Step.expectJson _ _ => "expect json used before any request"

/-- **C9.**  If an `ExpectStatus` or `ExpectJson` step is reached before any
`Request` step of the iteration (empty response cursor), the per-iteration
interpreter raises a hard error (a raised exception, not a recorded
outcome): the record store is returned unchanged — nothing is appended and
nothing is mutated — and the error is the no-response hard error of the
first step. -/
theorem C9_expect_before_request (jfind : JFind) (transport : Transport)
    (ctx : Ctx) (sc : Scenario) (records : List RequestRecord)
    (pre : List Step) (e : Step) (post : List Step)
    (hsteps : sc.steps = pre ++ e :: post)
    (hpre : ∀ s ∈ pre, isExpect s = true) (he : isExpect e = true) :
    run_scenario_async jfind transport ctx sc records
      = (records, Except.error (expectErrMsg (pre.headD e))) := by
  show runStepsAsync jfind transport ctx (stripQuotes sc.name) sc.steps
      none records = _
  rw [hsteps]
  cases pre with
  | nil =>
    cases e with
    | request m p => simp [isExpect] at he
    | expectStatus c => rfl
    | expectJson p chk => rfl
  | cons s pre' =>
    have hs := hpre s (by simp)
    cases s with
    | request m p => simp [isExpect] at hs
    | expectStatus c => rfl
    | expectJson p chk => rfl

/-- **C9 witness.**  A scenario whose first step is `expect status 200`
raises the hard error and leaves a nonempty record store untouched. -/
theorem C9_expect_before_request_witness :
    run_scenario_async (fun _ _ => []) (fun _ _ => (0, Except.error "down"))
      [] { name := "s", steps := [Step.expectStatus 200] }
      [{ scenario := "other", method := "GET", path := "/x", latency_ms := 1,
         status_code := 200, success := true, error := none }]
    = ([{ scenario := "other", method := "GET", path := "/x", latency_ms := 1,
          status_code := 200, success := true, error := none }],
       Except.error "expect status used before any request") :=
  C9_expect_before_request (fun _ _ => []) (fun _ _ => (0, Except.error "down"))
    [] { name := "s", steps := [Step.expectStatus 200] } _ [] (Step.expectStatus 200)
    [] rfl (fun s hs => absurd hs (by simp)) rfl

/-- **C8.**  `resolve_variables` processes the bindings in declaration order:
appending one binding resolves it against the union of the environment table
and the variables resolved so far (`\x7b**env_map, **resolved\x7d`) and then
assigns it; a reference is served by that union's lookup when the name is
bound (any environment binding or earlier variable) and fails with the
unresolved-reference error when it is absent — in particular a forward
reference to a later variable fails, as in `a = #b; b = "x"`. -/
theorem C8_resolveVariables :
    (∀ (vs : List VarEntry) (e : VarEntry) (env_map : Ctx),
      resolve_variables (some (vs ++ [e])) env_map
        = match resolve_variables (some vs) env_map with
          | Except.error err => Except.error err
          | Except.ok prev =>
            match resolve_value_or_ref e.value (pyUnion env_map prev) with
            | Except.error err => Except.error err
            | Except.ok v => Except.ok (dictInsert prev e.name v)) ∧
    (∀ (name : String) (ctx : Ctx) (v : String),
      List.lookup name ctx = some v →
        resolve_value_or_ref (some { value := "", ref := some name }) ctx
          = Except.ok v) ∧
    (∀ (name : String) (ctx : Ctx),
      List.lookup name ctx = none →
        resolve_value_or_ref (some { value := "", ref := some name }) ctx
          = Except.error (refNotFoundMsg name)) ∧
    resolve_variables
        (some [{ name := "a", value := some { value := "", ref := some "b" } },
               { name := "b", value := some { value := "x", ref := none } }]) []
      = Except.error (refNotFoundMsg "b") := by
  refine ⟨?_, ?_, ?_, ?_⟩
  · have go_append : ∀ (env_map : Ctx) (vs : List VarEntry) (e : VarEntry)
        (acc : Ctx),
        resolve_variables_go env_map (vs ++ [e]) acc
          = match resolve_variables_go env_map vs acc with
            | Except.error err => Except.error err
            | Except.ok prev =>
              match resolve_value_or_ref e.value (pyUnion env_map prev) with
              | Except.error err => Except.error err
              | Except.ok v => Except.ok (dictInsert prev e.name v) := by
      intro env_map vs e
      induction vs with
      | nil =>
        intro acc
        cases hx : resolve_value_or_ref e.value (pyUnion env_map acc) with
        | error err => simp [resolve_variables_go, hx]
        | ok v => simp [resolve_variables_go, hx]
      | cons entry rest ih =>
        intro acc
        cases hx : resolve_value_or_ref entry.value (pyUnion env_map acc) with
        | error err =>
          show resolve_variables_go env_map (entry :: (rest ++ [e])) acc = _
          simp [resolve_variables_go, hx]
        | ok v =>
          have hl : resolve_variables_go env_map ((entry :: rest) ++ [e]) acc
              = resolve_variables_go env_map (rest ++ [e])
                  (dictInsert acc entry.name v) := by
            simp [resolve_variables_go, hx]
          have hr : resolve_variables_go env_map (entry :: rest) acc
              = resolve_variables_go env_map rest (dictInsert acc entry.name v) := by
            simp [resolve_variables_go, hx]
          rw [hl, ih, hr]
    intro vs e env_map
    exact go_append env_map vs e []
  · intro name ctx v h
    simp [resolve_value_or_ref, resolve_ref, h]
  · intro name ctx h
    simp [resolve_value_or_ref, resolve_ref, h]
  · rfl

/-- **C8 witness.**  A variable may reference an environment binding and a
later variable may reference an earlier one; the appended binding is
resolved against the union of the environment and the variables so far. -/
theorem C8_resolveVariables_witness :
    resolve_value_or_ref (some { value := "", ref := some "a" }) [("a", "1")]
      = Except.ok "1" ∧
    resolve_value_or_ref (some { value := "", ref := some "z" }) [("a", "1")]
      = Except.error (refNotFoundMsg "z") ∧
    resolve_variables
        (some ([{ name := "a", value := some { value := "", ref := some "e" } }]
          ++ [{ name := "b", value := some { value := "", ref := some "a" } }]))
        [("e", "1")]
      = Except.ok [("a", "1"), ("b", "1")] := by
  refine ⟨C8_resolveVariables.2.1 "a" [("a", "1")] "1" rfl,
    C8_resolveVariables.2.2.1 "z" [("a", "1")] rfl, ?_⟩
  rw [C8_resolveVariables.1]
  decide

/-- The sorted list `[1..100]` from the spec's percentile example. -/
def oneToHundred : List ℚ :=
  (List.range 100).map (fun i => ((i + 1 : ℕ) : ℚ))

/-- **C3.**  `_percentile` on a sorted list of `n ≥ 2` values and percentile
`p ≥ 0` returns `values[⌊k⌋] + frac(k) * (values[⌊k⌋+1] - values[⌊k⌋])` for
`k = p/100 * (n-1)`, clamped to the last element at the upper boundary; a
single-element list returns that element for every percentile; for
`[1..100]` it returns p50 = 50.5, p95 = 95.05, p99 = 99.01; and the empty
list yields 0 for every latency statistic (min, max, mean, p50, p95, p99). -/
theorem C3_percentile :
    (∀ (values : List ℚ) (p : ℚ), 0 ≤ p → 2 ≤ values.length →
      ((values.length : ℤ) ≤ ⌊p / 100 * ((values.length : ℚ) - 1)⌋ + 1 →
        _percentile values p = values.getLastD 0) ∧
      (⌊p / 100 * ((values.length : ℚ) - 1)⌋ + 1 < (values.length : ℤ) →
        _percentile values p =
          values.getD (⌊p / 100 * ((values.length : ℚ) - 1)⌋).toNat 0
            + (p / 100 * ((values.length : ℚ) - 1)
                - ((⌊p / 100 * ((values.length : ℚ) - 1)⌋ : ℤ) : ℚ))
              * (values.getD ((⌊p / 100 * ((values.length : ℚ) - 1)⌋).toNat + 1) 0
                 - values.getD (⌊p / 100 * ((values.length : ℚ) - 1)⌋).toNat 0))) ∧
    (∀ (x p : ℚ), _percentile [x] p = x) ∧
    _percentile oneToHundred 50 = 50.5 ∧
    _percentile oneToHundred 95 = 95.05 ∧
    _percentile oneToHundred 99 = 99.01 ∧
    _compute_latency_stats [] = (0, 0, 0, 0, 0, 0) := by
  have formula : ∀ (values : List ℚ) (p : ℚ), 0 ≤ p → 2 ≤ values.length →
      ((values.length : ℤ) ≤ ⌊p / 100 * ((values.length : ℚ) - 1)⌋ + 1 →
        _percentile values p = values.getLastD 0) ∧
      (⌊p / 100 * ((values.length : ℚ) - 1)⌋ + 1 < (values.length : ℤ) →
        _percentile values p =
          values.getD (⌊p / 100 * ((values.length : ℚ) - 1)⌋).toNat 0
            + (p / 100 * ((values.length : ℚ) - 1)
                - ((⌊p / 100 * ((values.length : ℚ) - 1)⌋ : ℤ) : ℚ))
              * (values.getD ((⌊p / 100 * ((values.length : ℚ) - 1)⌋).toNat + 1) 0
                 - values.getD (⌊p / 100 * ((values.length : ℚ) - 1)⌋).toNat 0)) := by
    intro values p hp hlen
    rcases values with _ | ⟨a, _ | ⟨b, t⟩⟩
    · simp at hlen
    · simp at hlen
    · set vs : List ℚ := a :: b :: t with hvs
      set k : ℚ := p / 100 * ((vs.length : ℚ) - 1) with hk
      have hk0 : 0 ≤ k := by
        apply mul_nonneg (by positivity)
        have h2 : (2 : ℚ) ≤ (vs.length : ℚ) := by exact_mod_cast hlen
        linarith
      have htr : pyTrunc k = ⌊k⌋ := by simp [pyTrunc, hk0]
      have hfl0 : 0 ≤ ⌊k⌋ := Int.floor_nonneg.mpr hk0
      constructor
      · intro hclamp
        simp only [hvs, _percentile]
        rw [htr]
        rw [if_pos (by exact_mod_cast hclamp)]
      · intro hlt
        simp only [hvs, _percentile]
        rw [htr]
        rw [if_neg (by push_neg; exact_mod_cast hlt)]
        have hce : (⌊k⌋ + 1).toNat = ⌊k⌋.toNat + 1 := by omega
        rw [hce]
  have hgetD : ∀ (i : ℕ), i < 100 → oneToHundred[i]?.getD 0 = (i : ℚ) + 1 := by
    intro i hi
    rw [oneToHundred, List.getElem?_map, List.getElem?_range hi]
    show ((i + 1 : ℕ) : ℚ) = (i : ℚ) + 1
    push_cast
    ring
  have hlen : oneToHundred.length = 100 := by
    rw [oneToHundred, List.length_map, List.length_range]
  refine ⟨formula, fun x p => rfl, ?_, ?_, ?_, rfl⟩
  · have h := (formula oneToHundred 50 (by norm_num) (by rw [hlen]; norm_num)).2
      (by rw [hlen]; norm_num)
    rw [hlen] at h
    norm_num at h
    rw [show Int.toNat 49 = 49 from rfl] at h
    norm_num at h
    rw [hgetD 49 (by norm_num), hgetD 50 (by norm_num)] at h
    rw [h]
    norm_num
  · have h := (formula oneToHundred 95 (by norm_num) (by rw [hlen]; norm_num)).2
      (by rw [hlen]; norm_num)
    rw [hlen] at h
    norm_num at h
    rw [show Int.toNat 94 = 94 from rfl] at h
    norm_num at h
    rw [hgetD 94 (by norm_num), hgetD 95 (by norm_num)] at h
    rw [h]
    norm_num
  · have h := (formula oneToHundred 99 (by norm_num) (by rw [hlen]; norm_num)).2
      (by rw [hlen]; norm_num)
    rw [hlen] at h
    norm_num at h
    rw [show Int.toNat 98 = 98 from rfl] at h
    norm_num at h
    rw [hgetD 98 (by norm_num), hgetD 99 (by norm_num)] at h
    rw [h]
    norm_num

/-- **C3 witness.**  The percentile theorem applied at `[1, 2, 3]` with
`p = 100`: the index clamps at the boundary and the last element is
returned. -/
theorem C3_percentile_witness : _percentile [(1 : ℚ), 2, 3] 100 = 3 := by
  have h := (C3_percentile.1 [(1 : ℚ), 2, 3] 100 (by norm_num) (by norm_num)).1
    (by norm_num)
  rw [h]
  rfl

end LoadForge
